import Mathlib

/-
  Verification of the AI provider abstraction, prompt-context builder and
  SPARQL response extractor of the sparql-endpoint-tool repository.

  Shallow embedding conventions:
  - Python strings are modelled as lists of characters (ASCII-faithful;
    the case folding used by the code only ever touches ASCII letters).
  - Python float parameters (temperature) are modelled as rationals: the
    code never does float arithmetic on them, it only passes them through,
    tests truthiness (equality with 0) and compares them with the literal
    1.0, and those operations agree between floats and rationals for the
    literals involved.
  - Optional[int] / Optional[float] become Option Int / Option Rat, and
    the Python `x or default` idiom (which treats None, 0, 0.0 and the
    empty string as falsy) is embedded explicitly.
  - The vendor network clients are abstracted as transport functions from
    the outgoing request record to Except errorText responseText, exactly
    the boundary the source crosses with `await client....create(...)`.
  - Raised exceptions become Except / PyRes error values carrying the
    message text; HTTP status encoding of the web layer is abstracted to
    the detail text, which is all the claims mention.
-/

namespace SparqlEndpointTool

/-- Python strings, modelled as lists of characters. -/
abbrev Str := List Char

/-- Coerce a Lean string literal to the model type. -/
def strL (s : String) : Str := s.data

/-- Characters removed by Python str.strip() (ASCII whitespace set). -/
def pyIsSpace (c : Char) : Bool :=
  c = ' ' || c = '\t' || c = '\n' || c = '\r' || c = '\x0b' || c = '\x0c'

/-- Drop trailing characters satisfying pyIsSpace. -/
def revDropSpace (s : Str) : Str :=
  (s.reverse.dropWhile pyIsSpace).reverse

/-- Python str.strip(): remove leading and trailing whitespace. -/
def pyStrip (s : Str) : Str :=
  revDropSpace (s.dropWhile pyIsSpace)

/-- Python str.upper() restricted to ASCII, which is all the code compares. -/
def pyUpper (s : Str) : Str := s.map Char.toUpper

/-- Python str.lower() restricted to ASCII. -/
def pyLower (s : Str) : Str := s.map Char.toLower

/-- Boolean prefix test on character lists. -/
def isPrefixB : Str → Str → Bool
  | [], _ => true
  | _ :: _, [] => false
  | a :: as, b :: bs => a = b && isPrefixB as bs

/-- Case-insensitive (ASCII) boolean prefix test, as re.IGNORECASE does
for the ASCII-only patterns of the source. -/
def ciPrefixB : Str → Str → Bool
  | [], _ => true
  | _ :: _, [] => false
  | a :: as, b :: bs => a.toLower = b.toLower && ciPrefixB as bs

/-- Split a string at the first occurrence of the delimiter d: returns
the part strictly before the first occurrence and the part after it.
This is the semantics of a leftmost regex match on a literal pattern. -/
def splitFirst (d : Str) : Str → Option (Str × Str)
  | [] => match d with
    | [] => some ([], [])
    | _ :: _ => none
  | c :: s =>
    if isPrefixB d (c :: s) then some ([], (c :: s).drop d.length)
    else match splitFirst d s with
      | some pr => some (c :: pr.1, pr.2)
      | none => none

/-- Case-insensitive variant of splitFirst. -/
def ciSplitFirst (d : Str) : Str → Option (Str × Str)
  | [] => match d with
    | [] => some ([], [])
    | _ :: _ => none
  | c :: s =>
    if ciPrefixB d (c :: s) then some ([], (c :: s).drop d.length)
    else match ciSplitFirst d s with
      | some pr => some (c :: pr.1, pr.2)
      | none => none

/-- Python substring containment (the `in` operator on str). -/
def isSubstr (d s : Str) : Bool := (splitFirst d s).isSome

/-- The closing fence delimiter of the code-block regex patterns:
newline followed by three backticks. -/
def nlFence : Str := '\n' :: '`' :: '`' :: '`' :: []

/-- Opening fence of the sparql-tagged code-block pattern:
three backticks, the ascii letters s p a r q l, then a newline. -/
def sparqlFenceOpen : Str :=
  '`' :: '`' :: '`' :: 's' :: 'p' :: 'a' :: 'r' :: 'q' :: 'l' :: '\n' :: []

/-- Opening fence of the untagged code-block pattern. -/
def plainFenceOpen : Str := '`' :: '`' :: '`' :: '\n' :: []

/-- Search for a fenced block: first case-insensitive occurrence of the
opener that is followed by a closing fence; the captured group is the
text strictly between them.  This is the leftmost-match, lazy-group
semantics of re.search on the two fenced patterns of the source:
if the first opener occurrence has no closing fence after it, no later
occurrence has one either, so taking the first opener is faithful. -/
def fencedExtract (opener : Str) (s : Str) : Option Str :=
  match ciSplitFirst opener s with
  | none => none
  | some pr =>
    match splitFirst nlFence pr.2 with
    | none => none
    | some qr => some qr.1

/-- Keywords of the basic validation step in extract_sparql_from_response. -/
def sparqlKeywords : List Str :=
  [strL "SELECT", strL "WHERE", strL "ASK", strL "CONSTRUCT", strL "DESCRIBE"]

/-- The validation test: any keyword contained in query.upper(). -/
def hasSparqlKeyword (q : Str) : Bool :=
  sparqlKeywords.any (fun kw => isSubstr kw (pyUpper q))

/-- Result of Python code that may raise: a value or an exception text. -/
inductive PyRes (α : Type) where
  | ok : α → PyRes α
  | exn : Str → PyRes α
deriving DecidableEq

/-- The four bare-keyword patterns of extract_sparql_from_response.
Each of them (keyword, lazy any-character run, then blank line or end of
string, with DOTALL and IGNORECASE) matches exactly when the keyword
occurs case-insensitively in the response, because the lazy tail can
always extend to the end of the string.  None of these patterns has a
capture group, so the subsequent call match.group(1) in the source
raises IndexError: no such group. -/
def bareKeywordScan (s : Str) : PyRes (Option Str) :=
  if isSubstr (strL "SELECT") (pyUpper s) then .exn (strL "no such group")
  else if isSubstr (strL "ASK") (pyUpper s) then .exn (strL "no such group")
  else if isSubstr (strL "CONSTRUCT") (pyUpper s) then .exn (strL "no such group")
  else if isSubstr (strL "DESCRIBE") (pyUpper s) then .exn (strL "no such group")
  else .ok none

/-- One fenced-pattern attempt of the extraction loop: if the pattern
matches, the captured group is stripped and accepted when it contains a
SPARQL keyword, otherwise the loop moves on to the fallback. -/
def tryFencedRule (opener : Str) (s : Str) (fallback : PyRes (Option Str)) :
    PyRes (Option Str) :=
  match fencedExtract opener s with
  | some g =>
    if hasSparqlKeyword (pyStrip g) then .ok (some (pyStrip g)) else fallback
  | none => fallback

/-- extract_sparql_from_response of chat_endpoints.py: try the
sparql-tagged fence, then the untagged fence, then the four bare keyword
patterns (which raise when they match), else return None. -/
def extract_sparql_from_response (s : Str) : PyRes (Option Str) :=
  tryFencedRule sparqlFenceOpen s
    (tryFencedRule plainFenceOpen s (bareKeywordScan s))

/-- Re-embed an extracted query into a sparql-tagged fenced block. -/
def refence (q : Str) : Str := sparqlFenceOpen ++ q ++ nlFence

/-- A chat message: role and content (ChatMessage of ai_services.py). -/
structure ChatMsg where
  role : Str
  content : Str
deriving DecidableEq

/-- Python `x or d` on an optional rational (None and 0.0 are falsy). -/
def pyOrQ (x : Option ℚ) (d : ℚ) : ℚ :=
  match x with
  | some v => if v = 0 then d else v
  | none => d

/-- Python `x or d` on an optional integer (None and 0 are falsy). -/
def pyOrInt (x : Option Int) (d : Int) : Int :=
  match x with
  | some v => if v = 0 then d else v
  | none => d

/-- Truthiness of an Optional[int] (None and 0 are falsy). -/
def truthyOptInt (x : Option Int) : Bool :=
  match x with
  | some v => v ≠ 0
  | none => false

/-- The completion_params dictionary assembled by
OpenAIService.generate_response before the outbound call. -/
structure OpenAIParams where
  model : Str
  messages : List ChatMsg
  max_completion_tokens : Option Int
  temperature : Option ℚ
deriving DecidableEq

/-- Request construction of OpenAIService.generate_response:
max_completion_tokens is added only when max_tokens is truthy;
temp_value is `temperature or 0.1` and is added only when it differs
from 1.0. -/
def buildOpenAIParams (model : Str) (messages : List ChatMsg)
    (max_tokens : Option Int) (temperature : Option ℚ) : OpenAIParams :=
  { model := model
    messages := messages
    max_completion_tokens :=
      if truthyOptInt max_tokens then max_tokens else none
    temperature :=
      if pyOrQ temperature 0.1 = 1 then none else some (pyOrQ temperature 0.1) }

/-- The retry request: `del completion_params["temperature"]`. -/
def removeTemp (p : OpenAIParams) : OpenAIParams :=
  { p with temperature := none }

/-- OpenAIService.generate_response, instrumented with the list of
requests sent to the transport, in order.  The transport abstracts
client.chat.completions.create: it yields the response text of
choices[0].message.content, or the text of the raised exception. -/
def openaiGenerateCalls (transport : OpenAIParams → Except Str Str)
    (model : Str) (messages : List ChatMsg)
    (max_tokens : Option Int) (temperature : Option ℚ) :
    Except Str Str × List OpenAIParams :=
  let p := buildOpenAIParams model messages max_tokens temperature
  match transport p with
  | .ok r => (.ok r, [p])
  | .error e =>
    if isSubstr (strL "temperature") e && p.temperature.isSome then
      match transport (removeTemp p) with
      | .ok r => (.ok r, [p, removeTemp p])
      | .error e2 =>
        (.error (strL "OpenAI API error: " ++ e2), [p, removeTemp p])
    else (.error (strL "OpenAI API error: " ++ e), [p])

/-- OpenAIService.generate_response: the returned value only. -/
def openai_generate_response (transport : OpenAIParams → Except Str Str)
    (model : Str) (messages : List ChatMsg)
    (max_tokens : Option Int) (temperature : Option ℚ) : Except Str Str :=
  (openaiGenerateCalls transport model messages max_tokens temperature).1

/-- The kwargs dictionary assembled by AnthropicService.generate_response. -/
structure AnthropicParams where
  model : Str
  messages : List ChatMsg
  max_tokens : Int
  temperature : ℚ
  system : Option Str
deriving DecidableEq

/-- Role test used to separate system messages. -/
def isSystemRole (m : ChatMsg) : Bool := m.role = strL "system"

/-- Request construction of AnthropicService.generate_response:
system messages are filtered out and joined with a blank line; the
system field is added only when that joined content is truthy (Python:
`if system_content:`), so it is also omitted when the joined content is
the empty string; remaining messages keep their order; max_tokens is
`max_tokens or 2000` and temperature `temperature or 0.1`. -/
def buildAnthropicParams (model : Str) (messages : List ChatMsg)
    (max_tokens : Option Int) (temperature : Option ℚ) : AnthropicParams :=
  let systemMessages := messages.filter isSystemRole
  let userMessages := messages.filter (fun m => ! isSystemRole m)
  let systemContent : Option Str :=
    if systemMessages.isEmpty then none
    else some (List.intercalate (strL "\n\n") (systemMessages.map ChatMsg.content))
  { model := model
    messages := userMessages
    max_tokens := pyOrInt max_tokens 2000
    temperature := pyOrQ temperature 0.1
    system :=
      match systemContent with
      | some c => if c = [] then none else some c
      | none => none }

/-- AnthropicService.generate_response over an abstract transport that
yields response.content[0].text or the text of the raised exception. -/
def anthropic_generate_response (transport : AnthropicParams → Except Str Str)
    (model : Str) (messages : List ChatMsg)
    (max_tokens : Option Int) (temperature : Option ℚ) : Except Str Str :=
  match transport (buildAnthropicParams model messages max_tokens temperature) with
  | .ok r => .ok r
  | .error e => .error (strL "Anthropic API error: " ++ e)

/-- AIProvider of config.py: a two-member string enum. -/
inductive AIProvider where
  | openai
  | anthropic
deriving DecidableEq

/-- The .value string of an AIProvider member. -/
def providerValue : AIProvider → Str
  | .openai => strL "openai"
  | .anthropic => strL "anthropic"

/-- An initialized client is an abstract handle; the registry code never
inspects it, it only stores and returns it. -/
abbrev Service := Nat

/-- The services dictionary of AIServiceManager, in insertion order. -/
abbrev Registry := List (AIProvider × Service)

/-- Python dict membership and lookup (keys are unique in a dict; first
match on the association list). -/
def dictGet (k : AIProvider) : Registry → Option Service
  | [] => none
  | (k2, v) :: rest => if k = k2 then some v else dictGet k rest

/-- The message of the exception raised when no service is available. -/
def noProviderMsg : Str :=
  strL "No AI services available. Please configure API keys."

/-- The default-then-first fallback part of AIServiceManager.get_service. -/
def getServiceFallback (reg : Registry) (defaultP : AIProvider) :
    Except Str Service :=
  match dictGet defaultP reg with
  | some s => .ok s
  | none =>
    match reg with
    | (_, s) :: _ => .ok s
    | [] => .error noProviderMsg

/-- AIServiceManager.get_service: the requested provider when it is given
and registered (enum members are truthy, so `provider and ...` reduces to
the None test); otherwise the configured default when registered;
otherwise next(iter(services.values())), the first-inserted client;
otherwise the exception. -/
def get_service (reg : Registry) (defaultP : AIProvider)
    (requested : Option AIProvider) : Except Str Service :=
  match requested with
  | some p =>
    match dictGet p reg with
    | some s => .ok s
    | none => getServiceFallback reg defaultP
  | none => getServiceFallback reg defaultP

/-- The AI section of the configuration (AIConfig of config.py). -/
structure AIConfig where
  enabled : Bool
  default_provider : AIProvider
  openai_api_key : Option Str
  openai_model : Str
  anthropic_api_key : Option Str
  anthropic_model : Str
  max_tokens : Int
  temperature : ℚ

/-- Availability of the two optional vendor SDK imports; when an import
is missing the service constructor raises and initialization logs and
skips that provider. -/
structure PyEnv where
  openaiInstalled : Bool
  anthropicInstalled : Bool

/-- Truthiness of an Optional[str] API key (None and the empty string
are falsy). -/
def keyTruthy (k : Option Str) : Bool :=
  match k with
  | some s => s ≠ []
  | none => false

/-- AIServiceManager initialization: a provider enters the registry
exactly when its API key is truthy and its client constructs (the
SDK module is present); construction failures are swallowed.  The handles 0
and 1 stand for the two constructed client objects. -/
def initialize_services (cfg : AIConfig) (env : PyEnv) : Registry :=
  (if keyTruthy cfg.openai_api_key && env.openaiInstalled
   then [(AIProvider.openai, 0)] else []) ++
  (if keyTruthy cfg.anthropic_api_key && env.anthropicInstalled
   then [(AIProvider.anthropic, 1)] else [])

/-- AIServiceManager.is_enabled. -/
def is_enabled (cfg : AIConfig) (reg : Registry) : Bool :=
  cfg.enabled && decide (0 < reg.length)

/-- The graph handle: a finite triple store with stringified terms, plus
bound (namespacePrefix, namespaceUri) pairs, iterated in list order. -/
structure RDFGraph where
  triples : List (Str × Str × Str)
  namespaces : List (Str × Str)

/-- One sample-triple line: two leading spaces, then s p o. -/
def tripleLine (t : Str × Str × Str) : Str :=
  strL "  " ++ t.1 ++ strL " " ++ t.2.1 ++ strL " " ++ t.2.2

/-- The sample-triple lines: the loop breaks after 10 triples. -/
def sampleTripleLines (g : RDFGraph) : List Str :=
  (g.triples.take 10).map tripleLine

/-- One namespace line: a SPARQL PREFIX declaration. -/
def prefixLineFor (p ns : Str) : Str :=
  strL "  PREFIX " ++ p ++ strL ": <" ++ ns ++ strL ">"

/-- The PREFIX lines: the first 10 namespace pairs, keeping only those
with a truthy (non-empty) prefix. -/
def prefixLinesOf (g : RDFGraph) : List Str :=
  ((g.namespaces.take 10).filter (fun pr => pr.1 ≠ [])).map
    (fun pr => prefixLineFor pr.1 pr.2)

/-- The leading line with the triple count (len(graph)). -/
def contextCountLine (g : RDFGraph) : Str :=
  strL "The RDF graph contains " ++ (toString g.triples.length).data
    ++ strL " triples."

/-- get_graph_context of chat_endpoints.py, as the list of parts that
are joined with newlines: the count line; a header plus the sample
triples when there is at least one; a header plus the PREFIX lines when
the namespace list is non-empty (the header is emitted even if every
prefix is empty, exactly as in the source). -/
def get_graph_context_parts (g : RDFGraph) : List Str :=
  [contextCountLine g]
  ++ (if sampleTripleLines g = [] then []
      else strL "Sample triples:" :: sampleTripleLines g)
  ++ (if g.namespaces = [] then []
      else strL "Available namespaces:" :: prefixLinesOf g)

/-- get_graph_context: the parts joined with newlines. -/
def get_graph_context (g : RDFGraph) : Str :=
  List.intercalate (strL "\n") (get_graph_context_parts g)

/-- The text of each task template that precedes the graph context. -/
def tmplPre (task : Str) : Str :=
  if task = strL "interpret" then
    strL "You are an expert SPARQL assistant. Your task is to explain SPARQL queries in clear, natural language.\n\nGraph Context:\n"
  else if task = strL "generate" then
    strL "You are an expert SPARQL assistant. Your task is to generate SPARQL queries based on natural language descriptions.\n\nGraph Context:\n"
  else
    strL "You are an expert SPARQL assistant helping users work with RDF data and SPARQL queries.\n\nGraph Context:\n"

/-- The text of each task template that follows the graph context. -/
def tmplPost (task : Str) : Str :=
  if task = strL "interpret" then
    strL "\n\nWhen explaining a query:\n1. Describe what the query is trying to find/retrieve\n2. Explain any filters, conditions, or patterns used\n3. Mention the expected result format (SELECT, ASK, CONSTRUCT, etc.)\n4. Keep explanations clear and accessible to users with varying SPARQL knowledge\n\nBe concise but comprehensive in your explanations."
  else if task = strL "generate" then
    strL "\n\nWhen generating queries:\n1. Use appropriate prefixes from the available namespaces\n2. Create efficient and correct SPARQL syntax\n3. Include relevant LIMIT clauses when appropriate\n4. Consider the actual structure and content of the graph\n5. If modifying an existing query, preserve its structure when possible\n\nAlways return valid SPARQL that works with the provided graph structure."
  else
    strL "\n\nYou can help with:\n1. Explaining SPARQL queries in natural language\n2. Generating SPARQL queries from descriptions\n3. Modifying and improving existing queries\n4. Answering questions about SPARQL syntax and best practices\n5. Providing guidance on working with RDF data\n\nAlways provide practical, accurate assistance focused on SPARQL and RDF concepts."

/-- create_system_message: a system-role message whose content is the
task template (one of three f-strings) with the graph context embedded
at its interpolation point. -/
def create_system_message (g : RDFGraph) (task : Str) : ChatMsg :=
  { role := strL "system"
    content := tmplPre task ++ get_graph_context g ++ tmplPost task }

/-- ChatResponse of chat_endpoints.py. -/
structure ChatResponse where
  response : Str
  suggested_query : Option Str
  provider_used : Str
deriving DecidableEq

/-- QueryInterpretationRequest. -/
structure QueryInterpretationRequest where
  query : Str
  provider : Option AIProvider

/-- QueryGenerationRequest. -/
structure QueryGenerationRequest where
  description : Str
  current_query : Option Str
  provider : Option AIProvider

/-- ChatRequest. -/
structure ChatRequest where
  message : Str
  current_query : Option Str
  provider : Option AIProvider
  conversation_history : Option (List ChatMsg)

/-- The behaviour of each constructed client: its generate_response
outcome given the conversation and the forwarded parameters. -/
abbrev ServiceGen := Service → List ChatMsg → Option Int → Option ℚ → Except Str Str

/-- AIServiceManager.generate_response: resolve a service and forward
the configured max_tokens and temperature (the endpoints pass no kwargs,
so the kwargs.get defaults, the config values, are used). -/
def manager_generate_response (cfg : AIConfig) (reg : Registry)
    (svcGen : ServiceGen) (messages : List ChatMsg)
    (requested : Option AIProvider) : Except Str Str :=
  match get_service reg cfg.default_provider requested with
  | .error e => .error e
  | .ok s => svcGen s messages (some cfg.max_tokens) (some cfg.temperature)

/-- The detail text of the 503 raised when AI is not enabled. -/
def disabledMsg : Str := strL "AI features are not configured"

/-- The provider_used field computation shared by the three endpoints:
`request.provider or config.ai.default_provider`, then .value.  Enum
members are truthy, so this is requested-if-present else default,
computed without consulting the registry. -/
def reportedProvider (requested : Option AIProvider) (defaultP : AIProvider) : Str :=
  providerValue (requested.getD defaultP)

/-- interpret_query of chat_endpoints.py (HTTP status encoding
abstracted to the detail text). -/
def interpret_query (cfg : AIConfig) (reg : Registry) (svcGen : ServiceGen)
    (g : RDFGraph) (r : QueryInterpretationRequest) : Except Str ChatResponse :=
  if is_enabled cfg reg = false then .error disabledMsg
  else
    let messages := [create_system_message g (strL "interpret"),
      { role := strL "user"
        content := strL "Please explain this SPARQL query:\n\n```sparql\n"
          ++ r.query ++ strL "\n```" }]
    match manager_generate_response cfg reg svcGen messages r.provider with
    | .error e => .error e
    | .ok resp =>
      .ok { response := resp
            suggested_query := none
            provider_used := reportedProvider r.provider cfg.default_provider }

/-- generate_query of chat_endpoints.py.  The extractor runs inside the
try block, so when it raises (bare-keyword patterns have no capture
group) the endpoint reports the exception text as an error. -/
def generate_query (cfg : AIConfig) (reg : Registry) (svcGen : ServiceGen)
    (g : RDFGraph) (r : QueryGenerationRequest) : Except Str ChatResponse :=
  if is_enabled cfg reg = false then .error disabledMsg
  else
    let userContent :=
      strL "Generate a SPARQL query for: " ++ r.description ++
        (match r.current_query with
         | some q =>
           if q = [] then []
           else strL "\n\nCurrent query (modify if needed):\n```sparql\n"
             ++ q ++ strL "\n```"
         | none => [])
    let messages := [create_system_message g (strL "generate"),
      { role := strL "user", content := userContent }]
    match manager_generate_response cfg reg svcGen messages r.provider with
    | .error e => .error e
    | .ok resp =>
      match extract_sparql_from_response resp with
      | .exn m => .error m
      | .ok sq =>
        .ok { response := resp
              suggested_query := sq
              provider_used := reportedProvider r.provider cfg.default_provider }

/-- The trigger words deciding whether chat_conversation mines a query
out of the response. -/
def chatTriggers : List Str :=
  [strL "query", strL "select", strL "find", strL "show", strL "get", strL "list"]

/-- chat_conversation of chat_endpoints.py. -/
def chat_conversation (cfg : AIConfig) (reg : Registry) (svcGen : ServiceGen)
    (g : RDFGraph) (r : ChatRequest) : Except Str ChatResponse :=
  if is_enabled cfg reg = false then .error disabledMsg
  else
    let history := match r.conversation_history with
      | some h => h
      | none => []
    let contextParts : List Str :=
      (match r.current_query with
       | some q =>
         if q = [] then []
         else [strL "Current query:\n```sparql\n" ++ q ++ strL "\n```"]
       | none => [])
      ++ [strL "User message: " ++ r.message]
    let messages := create_system_message g (strL "general") :: history
      ++ [{ role := strL "user"
            content := List.intercalate (strL "\n\n") contextParts }]
    match manager_generate_response cfg reg svcGen messages r.provider with
    | .error e => .error e
    | .ok resp =>
      if chatTriggers.any (fun kw => isSubstr kw (pyLower r.message)) then
        match extract_sparql_from_response resp with
        | .exn m => .error m
        | .ok sq =>
          .ok { response := resp
                suggested_query := sq
                provider_used := reportedProvider r.provider cfg.default_provider }
      else
        .ok { response := resp
              suggested_query := none
              provider_used := reportedProvider r.provider cfg.default_provider }

/-- The transport stub of the spec's temperature-retry property: it
rejects any request carrying a temperature field with an error text
containing the word temperature, and accepts any request without one. -/
def tempRejectingStub : OpenAIParams → Except Str Str :=
  fun p =>
    if p.temperature.isSome then Except.error (strL "temperature not supported")
    else Except.ok (strL "SELECT ?s")

/-- A configuration whose default provider (vendor A) is not in the
registry below, used to exhibit the provider_used divergence. -/
def divergenceCfg : AIConfig :=
  { enabled := true, default_provider := AIProvider.openai,
    openai_api_key := none, openai_model := strL "gpt-4",
    anthropic_api_key := some (strL "k"),
    anthropic_model := strL "claude-3-5-sonnet-20241022",
    max_tokens := 2000, temperature := 0.1 }

/-- A registry holding only the vendor-B client. -/
def divergenceReg : Registry := [(AIProvider.anthropic, 7)]

/-- A client behaviour that always answers with a fixed text. -/
def constHello : ServiceGen := fun _ _ _ _ => Except.ok (strL "hello")

/-- The empty graph. -/
def emptyGraph : RDFGraph := { triples := [], namespaces := [] }

/-! Theorems. -/

/-- Claim C1: for every registry state and every optional requested
provider, get_service resolves in this exact order: a given and
registered requested provider is returned; otherwise the configured
default provider when registered; otherwise, for a non-empty registry,
the first-registered client; otherwise the call fails with the
no-provider-available error. -/
theorem get_service_resolution_order (reg : Registry) (d : AIProvider)
    (req : Option AIProvider) :
    (∀ p s, req = some p → dictGet p reg = some s →
      get_service reg d req = Except.ok s) ∧
    ((req = none ∨ ∃ p, req = some p ∧ dictGet p reg = none) →
      (∀ s, dictGet d reg = some s → get_service reg d req = Except.ok s) ∧
      (dictGet d reg = none → ∀ hd tl, reg = hd :: tl →
        get_service reg d req = Except.ok hd.2)) ∧
    (reg = [] → get_service reg d req = Except.error noProviderMsg) := by
  refine ⟨?_, ?_, ?_⟩
  · rintro p s rfl hget
    simp [get_service, hget]
  · rintro (rfl | ⟨p, rfl, hnone⟩)
    · refine ⟨fun s hd => by simp [get_service, getServiceFallback, hd], ?_⟩
      rintro hdnone ⟨hp, hs⟩ tl rfl
      simp [get_service, getServiceFallback, hdnone]
    · refine ⟨fun s hd => by simp [get_service, getServiceFallback, hnone, hd], ?_⟩
      rintro hdnone ⟨hp, hs⟩ tl rfl
      simp [get_service, getServiceFallback, hnone, hdnone]
  · rintro rfl
    cases req with
    | none => simp [get_service, getServiceFallback, dictGet]
    | some p => simp [get_service, getServiceFallback, dictGet]

/-- Witness for C1: a concrete registry where the requested provider
wins over the default, and the empty registry fails. -/
theorem get_service_resolution_order_witness :
    get_service [(AIProvider.openai, 5), (AIProvider.anthropic, 7)]
      AIProvider.anthropic (some AIProvider.openai) = Except.ok 5 ∧
    get_service [] AIProvider.openai none = Except.error noProviderMsg := by
  constructor
  · exact (get_service_resolution_order _ _ _).1 AIProvider.openai 5 rfl (by rfl)
  · exact (get_service_resolution_order _ _ _).2.2 rfl

/-- Claim C9: is_enabled is true exactly when the global AI-enabled flag
is set and at least one client is registered, so the manager is never
simultaneously enabled and holding an empty registry. -/
theorem is_enabled_iff (cfg : AIConfig) (reg : Registry) :
    (is_enabled cfg reg = true ↔ cfg.enabled = true ∧ reg ≠ []) ∧
    ¬ (is_enabled cfg reg = true ∧ reg = []) := by
  have h : is_enabled cfg reg = true ↔ cfg.enabled = true ∧ reg ≠ [] := by
    simp [is_enabled, Bool.and_eq_true, List.length_pos]
  refine ⟨h, ?_⟩
  rintro ⟨he, rfl⟩
  exact absurd (h.mp he).2 (by simp)

/-- Witness for C9: a concrete enabled configuration with one
registered client is reported enabled. -/
theorem is_enabled_iff_witness :
    is_enabled
      { enabled := true, default_provider := AIProvider.anthropic,
        openai_api_key := none, openai_model := strL "gpt-4",
        anthropic_api_key := some (strL "k"),
        anthropic_model := strL "claude-3-5-sonnet-20241022",
        max_tokens := 2000, temperature := 0.1 }
      [(AIProvider.anthropic, 1)] = true :=
  (is_enabled_iff _ _).1.mpr ⟨rfl, by simp⟩

/-- Claim C3: the extractor is NOT total on all inputs.  On a response
that contains a bare SPARQL keyword but no fenced block, the third
pattern matches, and the source then calls match.group(1) although that
pattern has no capture group, raising IndexError — the code contradicts
the spec sentence that the extractor never raises. -/
theorem extract_bare_select_raises :
    extract_sparql_from_response (strL "SELECT ?s WHERE ?s ?p ?o")
      = PyRes.exn (strL "no such group") := by
  rfl

/-- Counterexample for C4: an explicitly supplied temperature of 0.0 is
not sent; the Python idiom `temperature or 0.1` treats 0.0 as falsy and
replaces it with 0.1, so the outgoing request carries 0.1 instead of the
requested value (shown distinct from 0 by the decidable test). -/
theorem openai_zero_temperature_coerced :
    (buildOpenAIParams (strL "gpt-4")
      [{ role := strL "user", content := strL "hi" }]
      none (some 0)).temperature = some (1/10 : ℚ) ∧
    (1/10 : ℚ) ≠ 0 := by
  constructor
  · show (if pyOrQ (some 0) 0.1 = 1 then none else some (pyOrQ (some 0) 0.1))
        = some (1/10 : ℚ)
    norm_num [pyOrQ]
  · norm_num

/-- Claim C4 (amended): the outgoing vendor-A request omits the
temperature exactly when the effective value equals 1.0; an explicitly
supplied non-zero temperature other than 1.0 (in particular 0.1) is sent
unchanged; an unspecified temperature defaults to 0.1; and an explicit
0.0 is coerced to 0.1 by the `or` idiom before the omission test. -/
theorem openai_temperature_param_rule (model : Str) (messages : List ChatMsg)
    (mt : Option Int) :
    ((buildOpenAIParams model messages mt none).temperature = some (1/10 : ℚ)) ∧
    (∀ t : ℚ, t ≠ 0 → t ≠ 1 →
      (buildOpenAIParams model messages mt (some t)).temperature = some t) ∧
    ((buildOpenAIParams model messages mt (some 1)).temperature = none) ∧
    ((buildOpenAIParams model messages mt (some 0)).temperature = some (1/10 : ℚ)) ∧
    (∀ t : ℚ, ((buildOpenAIParams model messages mt (some t)).temperature = none
      ↔ t = 1)) := by
  refine ⟨?_, ?_, ?_, ?_, ?_⟩
  · show (if pyOrQ none 0.1 = 1 then none else some (pyOrQ none 0.1))
        = some (1/10 : ℚ)
    norm_num [pyOrQ]
  · intro t ht0 ht1
    show (if pyOrQ (some t) 0.1 = 1 then none else some (pyOrQ (some t) 0.1))
        = some t
    simp [pyOrQ, ht0, ht1]
  · show (if pyOrQ (some 1) 0.1 = 1 then none else some (pyOrQ (some 1) 0.1))
        = none
    norm_num [pyOrQ]
  · show (if pyOrQ (some 0) 0.1 = 1 then none else some (pyOrQ (some 0) 0.1))
        = some (1/10 : ℚ)
    norm_num [pyOrQ]
  · intro t
    show ((if pyOrQ (some t) 0.1 = 1 then none else some (pyOrQ (some t) 0.1))
        = none ↔ t = 1)
    by_cases ht0 : t = 0
    · subst ht0
      norm_num [pyOrQ]
      simp
    · by_cases ht1 : t = 1
      · subst ht1
        simp [pyOrQ]
      · simp [pyOrQ, ht0, ht1]

/-- Witness for C4: an explicit 0.1 is sent unchanged. -/
theorem openai_temperature_param_rule_witness :
    (buildOpenAIParams (strL "gpt-4") [] none (some (1/10 : ℚ))).temperature
      = some (1/10 : ℚ) :=
  (openai_temperature_param_rule (strL "gpt-4") [] none).2.1 (1/10)
    (by norm_num) (by norm_num)

/-- Counterexample for C5: a conversation whose only system message has
empty content.  System messages are present, yet the out-of-band system
field is omitted, because the Python truthiness test on the joined
content also drops an empty concatenation — contradicting the claim that
the field is omitted only when there are no system messages. -/
theorem anthropic_empty_system_omitted :
    (buildAnthropicParams (strL "m")
      [{ role := strL "system", content := [] }] none none).system = none ∧
    List.filter isSystemRole [{ role := strL "system", content := ([] : Str) }]
      = [{ role := strL "system", content := ([] : Str) }] := by
  constructor
  · rfl
  · rfl

/-- Claim C5 (amended): the vendor-B request removes every system-role
message, keeps the rest in their original relative order (a sublist of
the input in the order given), concatenates the system contents with a
blank-line separator into the out-of-band system field — omitted when
there are no system messages OR when the concatenated content is the
empty string — and defaults max tokens to 2000 and temperature to 0.1
when unspecified. -/
theorem anthropic_params_shape (model : Str) (messages : List ChatMsg)
    (mt : Option Int) (t : Option ℚ) :
    (buildAnthropicParams model messages mt t).messages
        = messages.filter (fun m => ! isSystemRole m) ∧
    ((buildAnthropicParams model messages mt t).messages).Sublist messages ∧
    (∀ m, m ∈ (buildAnthropicParams model messages mt t).messages →
        isSystemRole m = false) ∧
    (buildAnthropicParams model messages mt t).system =
      (if messages.filter isSystemRole = []
          ∨ List.intercalate (strL "\n\n")
              ((messages.filter isSystemRole).map ChatMsg.content) = []
       then none
       else some (List.intercalate (strL "\n\n")
              ((messages.filter isSystemRole).map ChatMsg.content))) ∧
    (mt = none → (buildAnthropicParams model messages mt t).max_tokens = 2000) ∧
    (t = none → (buildAnthropicParams model messages mt t).temperature = 1/10) := by
  refine ⟨rfl, ?_, ?_, ?_, ?_, ?_⟩
  · exact List.filter_sublist messages
  · intro m hm
    have := List.of_mem_filter hm
    simpa using this
  · show (match (if (messages.filter isSystemRole).isEmpty then none
          else some (List.intercalate (strL "\n\n")
            ((messages.filter isSystemRole).map ChatMsg.content))) with
        | some c => if c = [] then none else some c
        | none => none) = _
    by_cases h1 : messages.filter isSystemRole = []
    · simp [h1]
    · have h1b : (messages.filter isSystemRole).isEmpty = false := by
        simpa [List.isEmpty_iff] using h1
      by_cases h2 : List.intercalate (strL "\n\n")
          ((messages.filter isSystemRole).map ChatMsg.content) = []
      · simp [h1b, h1, h2]
      · simp [h1b, h1, h2]
  · rintro rfl
    rfl
  · rintro rfl
    show pyOrQ none 0.1 = 1/10
    norm_num [pyOrQ]

/-- Witness for C5: two system messages and one user message; the system
field is their contents joined by a blank line and the conversation
keeps only the user message. -/
theorem anthropic_params_shape_witness :
    (buildAnthropicParams (strL "m")
      [{ role := strL "system", content := strL "a" },
       { role := strL "user", content := strL "b" },
       { role := strL "system", content := strL "c" }] none none).system
        = some (strL "a\n\nc") ∧
    (buildAnthropicParams (strL "m")
      [{ role := strL "system", content := strL "a" },
       { role := strL "user", content := strL "b" },
       { role := strL "system", content := strL "c" }] none none).messages
        = [{ role := strL "user", content := strL "b" }] := by
  have h := anthropic_params_shape (strL "m")
    [{ role := strL "system", content := strL "a" },
     { role := strL "user", content := strL "b" },
     { role := strL "system", content := strL "c" }] none none
  refine ⟨?_, ?_⟩
  · rw [h.2.2.2.1]
    rfl
  · rw [h.1]
    rfl

/-- Claim C2: when the first vendor-A call fails with an error text
containing the word temperature and the outgoing request carried a
temperature parameter, exactly one retry is sent, identical to the first
request except that the temperature parameter is removed, and its
outcome is the final result; any other failure is not retried and is
surfaced as an error carrying the original cause message. -/
theorem openai_temperature_retry (transport : OpenAIParams → Except Str Str)
    (model : Str) (messages : List ChatMsg) (mt : Option Int) (t : Option ℚ)
    (e : Str)
    (hfail : transport (buildOpenAIParams model messages mt t) = Except.error e) :
    (isSubstr (strL "temperature") e = true ∧
        (buildOpenAIParams model messages mt t).temperature.isSome = true →
      openaiGenerateCalls transport model messages mt t
        = ((match transport (removeTemp (buildOpenAIParams model messages mt t)) with
            | Except.ok r => Except.ok r
            | Except.error e2 => Except.error (strL "OpenAI API error: " ++ e2)),
           [buildOpenAIParams model messages mt t,
            removeTemp (buildOpenAIParams model messages mt t)])) ∧
    ((isSubstr (strL "temperature") e = true ∧
        (buildOpenAIParams model messages mt t).temperature.isSome = true → False) →
      openaiGenerateCalls transport model messages mt t
        = (Except.error (strL "OpenAI API error: " ++ e),
           [buildOpenAIParams model messages mt t])) ∧
    removeTemp (buildOpenAIParams model messages mt t)
      = { buildOpenAIParams model messages mt t with temperature := none } := by
  refine ⟨?_, ?_, rfl⟩
  · rintro ⟨h1, h2⟩
    cases h2nd : transport (removeTemp (buildOpenAIParams model messages mt t)) with
    | ok r => simp [openaiGenerateCalls, hfail, h1, h2, h2nd]
    | error e2 => simp [openaiGenerateCalls, hfail, h1, h2, h2nd]
  · intro hc
    have hcond : (isSubstr (strL "temperature") e
        && (buildOpenAIParams model messages mt t).temperature.isSome) = false := by
      cases hA : isSubstr (strL "temperature") e <;>
        cases hB : (buildOpenAIParams model messages mt t).temperature.isSome <;>
        simp_all
    simp [openaiGenerateCalls, hfail, hcond]

/-- Witness for C2: against the rejecting stub, a call with temperature
0.1 succeeds via exactly one retry, the trace holds exactly the two
requests, and the final request carries no temperature field. -/
theorem openai_temperature_retry_witness :
    openaiGenerateCalls tempRejectingStub (strL "gpt-4")
      [{ role := strL "user", content := strL "hi" }] none (some (1/10 : ℚ))
      = (Except.ok (strL "SELECT ?s"),
         [buildOpenAIParams (strL "gpt-4")
            [{ role := strL "user", content := strL "hi" }] none (some (1/10 : ℚ)),
          removeTemp (buildOpenAIParams (strL "gpt-4")
            [{ role := strL "user", content := strL "hi" }] none (some (1/10 : ℚ)))]) ∧
    (removeTemp (buildOpenAIParams (strL "gpt-4")
        [{ role := strL "user", content := strL "hi" }] none
        (some (1/10 : ℚ)))).temperature = none := by
  have hp : (buildOpenAIParams (strL "gpt-4")
      [{ role := strL "user", content := strL "hi" }] none
      (some (1/10 : ℚ))).temperature = some (1/10 : ℚ) := by
    show (if pyOrQ (some (1/10 : ℚ)) 0.1 = 1 then none
          else some (pyOrQ (some (1/10 : ℚ)) 0.1)) = some (1/10 : ℚ)
    norm_num [pyOrQ]
  have hfail : tempRejectingStub (buildOpenAIParams (strL "gpt-4")
      [{ role := strL "user", content := strL "hi" }] none (some (1/10 : ℚ)))
      = Except.error (strL "temperature not supported") := by
    unfold tempRejectingStub
    rw [hp]
    rfl
  have h := (openai_temperature_retry tempRejectingStub (strL "gpt-4")
      [{ role := strL "user", content := strL "hi" }] none (some (1/10 : ℚ))
      (strL "temperature not supported") hfail).1 ⟨by rfl, by rw [hp]; rfl⟩
  refine ⟨?_, rfl⟩
  rw [h]
  rfl

/-- Claim C6: for every graph handle and every task kind, the system
message built by the context builder has at most 10 sample-triple lines
and at most 10 PREFIX lines, PREFIX lines come only from namespace
entries with a non-empty prefix, and the graph summary is embedded
between the fixed task-specific template texts. -/
theorem context_builder_bounds (g : RDFGraph) (task : Str) :
    (sampleTripleLines g).length ≤ 10 ∧
    (prefixLinesOf g).length ≤ 10 ∧
    (∀ l, l ∈ prefixLinesOf g → ∃ p ns, (p, ns) ∈ g.namespaces ∧ p ≠ [] ∧
      l = prefixLineFor p ns) ∧
    (create_system_message g task).role = strL "system" ∧
    (create_system_message g task).content
      = tmplPre task ++ get_graph_context g ++ tmplPost task ∧
    get_graph_context g
      = List.intercalate (strL "\n") (get_graph_context_parts g) := by
  refine ⟨?_, ?_, ?_, rfl, rfl, rfl⟩
  · have h1 : (sampleTripleLines g).length = (g.triples.take 10).length := by
      simp [sampleTripleLines]
    rw [h1, List.length_take]
    exact min_le_left _ _
  · have h1 : (prefixLinesOf g).length
        = ((g.namespaces.take 10).filter (fun pr => pr.1 ≠ [])).length := by
      simp [prefixLinesOf]
    rw [h1]
    calc ((g.namespaces.take 10).filter (fun pr => pr.1 ≠ [])).length
        ≤ (g.namespaces.take 10).length := List.length_filter_le _ _
      _ = min 10 g.namespaces.length := List.length_take _ _
      _ ≤ 10 := min_le_left _ _
  · intro l hl
    unfold prefixLinesOf at hl
    obtain ⟨pr, hmem, rfl⟩ := List.mem_map.mp hl
    obtain ⟨hmem2, hp⟩ := List.mem_filter.mp hmem
    exact ⟨pr.1, pr.2, List.take_subset _ _ hmem2, by simpa using hp, rfl⟩

/-- Witness for C6: on a one-namespace graph the single PREFIX line
indeed comes from a non-empty prefix of the namespace list. -/
theorem context_builder_bounds_witness :
    ∃ p ns,
      (p, ns) ∈ ({ triples := [], namespaces := [(strL "ex", strL "http://e/")] } : RDFGraph).namespaces
      ∧ p ≠ [] ∧ prefixLineFor (strL "ex") (strL "http://e/") = prefixLineFor p ns :=
  (context_builder_bounds
      { triples := [], namespaces := [(strL "ex", strL "http://e/")] }
      (strL "interpret")).2.2.1
    (prefixLineFor (strL "ex") (strL "http://e/"))
    (by decide)

/-- Counterexample for C7: with a transport that succeeds with the empty
text, the vendor-A generate operation returns the empty string as a
success, so generate does not guarantee a non-empty text on success. -/
theorem openai_empty_success :
    openai_generate_response (fun _ => Except.ok []) (strL "gpt-4")
      [{ role := strL "user", content := strL "hi" }] none none
      = Except.ok ([] : Str) := by
  rfl

/-- Claim C7 (amended): for every message sequence and any transport
behaviour, generate (either vendor) returns exactly a text the transport
produced — which may be empty — or an error wrapping the message of a
transport failure; it never fabricates a success. -/
theorem generate_text_from_transport
    (tA : OpenAIParams → Except Str Str) (tB : AnthropicParams → Except Str Str)
    (model : Str) (messages : List ChatMsg) (mt : Option Int) (t : Option ℚ) :
    (∀ r, openai_generate_response tA model messages mt t = Except.ok r →
      ∃ p, tA p = Except.ok r) ∧
    (∀ e, openai_generate_response tA model messages mt t = Except.error e →
      ∃ e0, e = strL "OpenAI API error: " ++ e0 ∧ ∃ p, tA p = Except.error e0) ∧
    (∀ r, anthropic_generate_response tB model messages mt t = Except.ok r →
      tB (buildAnthropicParams model messages mt t) = Except.ok r) ∧
    (∀ e, anthropic_generate_response tB model messages mt t = Except.error e →
      ∃ e0, e = strL "Anthropic API error: " ++ e0 ∧
        tB (buildAnthropicParams model messages mt t) = Except.error e0) := by
  refine ⟨?_, ?_, ?_, ?_⟩
  · intro r h
    cases hA : tA (buildOpenAIParams model messages mt t) with
    | ok r0 =>
      simp [openai_generate_response, openaiGenerateCalls, hA] at h
      exact ⟨buildOpenAIParams model messages mt t, by rw [hA, h]⟩
    | error e0 =>
      by_cases hc : (isSubstr (strL "temperature") e0
          && (buildOpenAIParams model messages mt t).temperature.isSome) = true
      · cases hA2 : tA (removeTemp (buildOpenAIParams model messages mt t)) with
        | ok r0 =>
          simp [openai_generate_response, openaiGenerateCalls, hA, hc, hA2] at h
          exact ⟨removeTemp (buildOpenAIParams model messages mt t), by rw [hA2, h]⟩
        | error e2 =>
          simp [openai_generate_response, openaiGenerateCalls, hA, hc, hA2] at h
      · have hc2 : (isSubstr (strL "temperature") e0
            && (buildOpenAIParams model messages mt t).temperature.isSome) = false := by
          simpa using hc
        simp [openai_generate_response, openaiGenerateCalls, hA, hc2] at h
  · intro e h
    cases hA : tA (buildOpenAIParams model messages mt t) with
    | ok r0 => simp [openai_generate_response, openaiGenerateCalls, hA] at h
    | error e0 =>
      by_cases hc : (isSubstr (strL "temperature") e0
          && (buildOpenAIParams model messages mt t).temperature.isSome) = true
      · cases hA2 : tA (removeTemp (buildOpenAIParams model messages mt t)) with
        | ok r0 =>
          simp [openai_generate_response, openaiGenerateCalls, hA, hc, hA2] at h
        | error e2 =>
          simp [openai_generate_response, openaiGenerateCalls, hA, hc, hA2] at h
          exact ⟨e2, by rw [← h], removeTemp (buildOpenAIParams model messages mt t), hA2⟩
      · have hc2 : (isSubstr (strL "temperature") e0
            && (buildOpenAIParams model messages mt t).temperature.isSome) = false := by
          simpa using hc
        simp [openai_generate_response, openaiGenerateCalls, hA, hc2] at h
        exact ⟨e0, by rw [← h], buildOpenAIParams model messages mt t, hA⟩
  · intro r h
    cases hB : tB (buildAnthropicParams model messages mt t) with
    | ok r0 =>
      simp [anthropic_generate_response, hB] at h
      subst h
      rfl
    | error e0 => simp [anthropic_generate_response, hB] at h
  · intro e h
    cases hB : tB (buildAnthropicParams model messages mt t) with
    | ok r0 => simp [anthropic_generate_response, hB] at h
    | error e0 =>
      simp [anthropic_generate_response, hB] at h
      refine ⟨e0, ?_, rfl⟩
      rw [← h]

/-- Witness for C7: a constant transport text is passed through. -/
theorem generate_text_from_transport_witness :
    ∃ p : OpenAIParams,
      (fun _ : OpenAIParams => (Except.ok (strL "hello") : Except Str Str)) p
        = Except.ok (strL "hello") :=
  (generate_text_from_transport
    (fun _ : OpenAIParams => (Except.ok (strL "hello") : Except Str Str))
    (fun _ : AnthropicParams => (Except.ok (strL "hello") : Except Str Str))
    (strL "gpt-4")
    [{ role := strL "user", content := strL "hi" }] none none).1
    (strL "hello") (by rfl)

/-- Claim C10: every chat, interpret and generate response reports as
provider_used the requested provider when one was supplied and the
configured default provider otherwise, computed without consulting the
registry; when the default is absent from the registry and resolution
falls back to the first registered client, the reported provider can
therefore differ from the client that produced the response. -/
theorem provider_used_reporting
    (cfg : AIConfig) (reg : Registry) (svcGen : ServiceGen) (g : RDFGraph) :
    (∀ r resp, interpret_query cfg reg svcGen g r = Except.ok resp →
      resp.provider_used = providerValue (r.provider.getD cfg.default_provider)) ∧
    (∀ r resp, generate_query cfg reg svcGen g r = Except.ok resp →
      resp.provider_used = providerValue (r.provider.getD cfg.default_provider)) ∧
    (∀ r resp, chat_conversation cfg reg svcGen g r = Except.ok resp →
      resp.provider_used = providerValue (r.provider.getD cfg.default_provider)) ∧
    (∀ p s tl, reg = (p, s) :: tl → dictGet cfg.default_provider reg = none →
      get_service reg cfg.default_provider none = Except.ok s) := by
  refine ⟨?_, ?_, ?_, ?_⟩
  · intro r resp h
    simp only [interpret_query] at h
    repeat' split at h
    all_goals first
      | (injection h with h2; subst h2; rfl)
      | injection h
  · intro r resp h
    simp only [generate_query] at h
    repeat' split at h
    all_goals first
      | (injection h with h2; subst h2; rfl)
      | injection h
  · intro r resp h
    simp only [chat_conversation] at h
    repeat' split at h
    all_goals first
      | (injection h with h2; subst h2; rfl)
      | injection h
  · rintro p s tl rfl hdd
    simp [get_service, getServiceFallback, hdd]

/-- Witness for C10: default provider vendor A, registry holding only
the vendor-B client: the response is produced by the vendor-B client
(service handle 7) but reported as coming from vendor A. -/
theorem provider_used_reporting_witness :
    interpret_query divergenceCfg divergenceReg constHello emptyGraph
        { query := strL "SELECT ?s", provider := none }
      = Except.ok { response := strL "hello", suggested_query := none, provider_used := strL "openai" } ∧
    ({ response := strL "hello", suggested_query := none, provider_used := strL "openai" } : ChatResponse).provider_used
      = providerValue ((none : Option AIProvider).getD divergenceCfg.default_provider) ∧
    get_service divergenceReg divergenceCfg.default_provider none = Except.ok 7 ∧
    providerValue AIProvider.anthropic ≠ strL "openai" := by
  refine ⟨by rfl, ?_, ?_, by decide⟩
  · exact (provider_used_reporting divergenceCfg divergenceReg constHello
      emptyGraph).1 { query := strL "SELECT ?s", provider := none }
      { response := strL "hello", suggested_query := none, provider_used := strL "openai" } (by rfl)
  · exact (provider_used_reporting divergenceCfg divergenceReg constHello
      emptyGraph).2.2.2 AIProvider.anthropic 7 [] rfl (by rfl)

/-! Lemmas about the string scanning primitives, used for the extraction
round-trip property. -/

theorem isPrefixB_refl (d : Str) : isPrefixB d d = true := by
  induction d with
  | nil => rfl
  | cons a as ih => simp [isPrefixB, ih]

theorem isPrefixB_append_right (d u v : Str) (h : isPrefixB d u = true) :
    isPrefixB d (u ++ v) = true := by
  induction d generalizing u with
  | nil => rfl
  | cons a as ih =>
    cases u with
    | nil => simp [isPrefixB] at h
    | cons b bs =>
      simp [isPrefixB] at h ⊢
      exact ⟨h.1, ih bs h.2⟩

theorem isPrefixB_drop_eq (d s : Str) (h : isPrefixB d s = true) :
    d ++ s.drop d.length = s := by
  induction d generalizing s with
  | nil => simp
  | cons a as ih =>
    cases s with
    | nil => simp [isPrefixB] at h
    | cons b bs =>
      simp [isPrefixB] at h
      obtain ⟨rfl, h2⟩ := h
      simp only [List.cons_append, List.length_cons, List.drop_succ_cons]
      rw [ih bs h2]

theorem splitFirst_decomp (d s a b : Str) (h : splitFirst d s = some (a, b)) :
    s = a ++ d ++ b := by
  induction s generalizing a b with
  | nil =>
    cases d with
    | nil =>
      simp [splitFirst] at h
      obtain ⟨rfl, rfl⟩ := h
      rfl
    | cons x xs => simp [splitFirst] at h
  | cons c s ih =>
    rw [splitFirst] at h
    by_cases hp : isPrefixB d (c :: s) = true
    · rw [if_pos hp] at h
      injection h with h2
      injection h2 with ha hb
      rw [← ha, ← hb]
      simp only [List.nil_append]
      exact (isPrefixB_drop_eq d (c :: s) hp).symm
    · rw [if_neg hp] at h
      cases hs : splitFirst d s with
      | none => rw [hs] at h; cases h
      | some pr =>
        rw [hs] at h
        injection h with h2
        injection h2 with ha hb
        rw [← ha, ← hb]
        have := ih pr.1 pr.2 hs
        simp only [List.cons_append]
        rw [← this]

theorem splitFirst_not_in_head (d s a b : Str) (hd : d ≠ [])
    (h : splitFirst d s = some (a, b)) : splitFirst d a = none := by
  induction s generalizing a b with
  | nil =>
    cases d with
    | nil => exact absurd rfl hd
    | cons x xs => simp [splitFirst] at h
  | cons c s ih =>
    rw [splitFirst] at h
    by_cases hp : isPrefixB d (c :: s) = true
    · rw [if_pos hp] at h
      injection h with h2
      injection h2 with ha hb
      rw [← ha]
      cases d with
      | nil => exact absurd rfl hd
      | cons x xs => rfl
    · rw [if_neg hp] at h
      cases hs : splitFirst d s with
      | none => rw [hs] at h; cases h
      | some pr =>
        rw [hs] at h
        injection h with h2
        injection h2 with ha hb
        rw [← ha]
        have ihr := ih pr.1 pr.2 hs
        have hp2 : isPrefixB d (c :: pr.1) = false := by
          cases hq : isPrefixB d (c :: pr.1) with
          | false => rfl
          | true =>
            exfalso
            have hdec := splitFirst_decomp d s pr.1 pr.2 hs
            have hext : isPrefixB d (c :: s) = true := by
              have : c :: s = (c :: pr.1) ++ (d ++ pr.2) := by
                rw [hdec]; simp
              rw [this]
              exact isPrefixB_append_right d (c :: pr.1) (d ++ pr.2) hq
            exact absurd hext (by simp [hp])
        rw [splitFirst, hp2]
        simp [ihr]

theorem splitFirst_append_self (q : Str) (h : splitFirst nlFence q = none) :
    splitFirst nlFence (q ++ nlFence) = some (q, []) := by
  induction q with
  | nil => rfl
  | cons c q ih =>
    have hparts : isPrefixB nlFence (c :: q) = false ∧ splitFirst nlFence q = none := by
      rw [splitFirst] at h
      by_cases hp : isPrefixB nlFence (c :: q) = true
      · rw [if_pos hp] at h; cases h
      · refine ⟨by simpa using hp, ?_⟩
        rw [if_neg hp] at h
        cases hs : splitFirst nlFence q with
        | none => rfl
        | some pr => rw [hs] at h; cases h
    have hkey : isPrefixB nlFence (c :: (q ++ nlFence)) = false := by
      cases q with
      | nil => simp [isPrefixB, nlFence]
      | cons c1 q1 =>
        cases q1 with
        | nil => simp [isPrefixB, nlFence]
        | cons c2 q2 =>
          cases q2 with
          | nil => simp [isPrefixB, nlFence]
          | cons c3 q3 =>
            cases hq : isPrefixB nlFence (c :: (c1 :: c2 :: c3 :: q3 ++ nlFence)) with
            | false => rfl
            | true =>
              exfalso
              have hqq : isPrefixB nlFence (c :: c1 :: c2 :: c3 :: q3) = true := by
                simpa [nlFence, isPrefixB] using hq
              exact absurd hqq (by simp [hparts.1])
    show splitFirst nlFence (c :: (q ++ nlFence)) = some (c :: q, [])
    rw [splitFirst, hkey]
    simp [ih hparts.2]

theorem ciPrefixB_refl_append (x y : Str) : ciPrefixB x (x ++ y) = true := by
  induction x with
  | nil => rfl
  | cons a as ih => simp [ciPrefixB, ih]

theorem ciSplitFirst_self (d rest : Str) (hd : d ≠ []) :
    ciSplitFirst d (d ++ rest) = some ([], rest) := by
  cases d with
  | nil => exact absurd rfl hd
  | cons a as =>
    show ciSplitFirst (a :: as) (a :: (as ++ rest)) = some ([], rest)
    rw [ciSplitFirst]
    have h1 : ciPrefixB (a :: as) (a :: (as ++ rest)) = true :=
      ciPrefixB_refl_append (a :: as) rest
    rw [h1]
    simp [List.drop_left]

theorem dropWhile_idem (p : Char → Bool) (s : Str) :
    (s.dropWhile p).dropWhile p = s.dropWhile p := by
  induction s with
  | nil => rfl
  | cons a s ih =>
    by_cases hp : p a = true
    · simp [List.dropWhile_cons, hp, ih]
    · simp [List.dropWhile_cons, hp]

theorem dropWhile_length_le (p : Char → Bool) (l : Str) :
    (List.dropWhile p l).length ≤ l.length := by
  induction l with
  | nil => simp
  | cons a t ih =>
    rw [List.dropWhile_cons]
    by_cases hp : p a = true
    · simp only [hp, if_true, List.length_cons]
      omega
    · simp [hp]

theorem dropWhile_head_false (p : Char → Bool) (a : Char) (t : Str)
    (h : List.dropWhile p (a :: t) = a :: t) : p a = false := by
  by_cases hp : p a = true
  · rw [List.dropWhile_cons, if_pos hp] at h
    have hlen := congrArg List.length h
    have hle : (List.dropWhile p t).length ≤ t.length := dropWhile_length_le p t
    simp at hlen
    omega
  · simpa using hp

theorem dropWhile_eq_self_of_append (p : Char → Bool) (y w : Str)
    (h : List.dropWhile p (y ++ w) = y ++ w) : List.dropWhile p y = y := by
  cases y with
  | nil => rfl
  | cons a t =>
    have hfalse : p a = false := dropWhile_head_false p a (t ++ w) (by simpa using h)
    rw [List.dropWhile_cons, if_neg (by simp [hfalse])]

theorem revDropSpace_idem (s : Str) :
    revDropSpace (revDropSpace s) = revDropSpace s := by
  simp [revDropSpace, List.reverse_reverse, dropWhile_idem]

theorem revDropSpace_append_eq (x : Str) :
    revDropSpace x ++ (x.reverse.takeWhile pyIsSpace).reverse = x := by
  rw [revDropSpace, ← List.reverse_append, List.takeWhile_append_dropWhile,
    List.reverse_reverse]

theorem pyStrip_idem (s : Str) : pyStrip (pyStrip s) = pyStrip s := by
  unfold pyStrip
  have hxfix : List.dropWhile pyIsSpace (List.dropWhile pyIsSpace s)
      = List.dropWhile pyIsSpace s := dropWhile_idem pyIsSpace s
  have hpre : List.dropWhile pyIsSpace (revDropSpace (List.dropWhile pyIsSpace s))
      = revDropSpace (List.dropWhile pyIsSpace s) := by
    refine dropWhile_eq_self_of_append pyIsSpace _
      (((List.dropWhile pyIsSpace s).reverse.takeWhile pyIsSpace).reverse) ?_
    rw [revDropSpace_append_eq]
    exact hxfix
  rw [hpre, revDropSpace_idem]

theorem pyStrip_decomp (s : Str) : ∃ u v, u ++ pyStrip s ++ v = s := by
  refine ⟨s.takeWhile pyIsSpace,
    ((s.dropWhile pyIsSpace).reverse.takeWhile pyIsSpace).reverse, ?_⟩
  unfold pyStrip
  rw [List.append_assoc, revDropSpace_append_eq, List.takeWhile_append_dropWhile]

theorem splitFirst_isSome_of_append (d a b : Str) (hd : d ≠ []) :
    (splitFirst d (a ++ d ++ b)).isSome = true := by
  induction a with
  | nil =>
    cases d with
    | nil => exact absurd rfl hd
    | cons x xs =>
      have h1 : isPrefixB (x :: xs) ((x :: xs) ++ b) = true :=
        isPrefixB_append_right (x :: xs) (x :: xs) b (isPrefixB_refl (x :: xs))
      show (splitFirst (x :: xs) (x :: (xs ++ b))).isSome = true
      rw [splitFirst]
      simp only [List.cons_append] at h1
      rw [h1]
      simp
  | cons c a ih =>
    show (splitFirst d (c :: (a ++ d ++ b))).isSome = true
    rw [splitFirst]
    by_cases hp : isPrefixB d (c :: (a ++ d ++ b)) = true
    · rw [hp]; simp
    · rw [(by simpa using hp : isPrefixB d (c :: (a ++ d ++ b)) = false)]
      cases hs : splitFirst d (a ++ d ++ b) with
      | none => rw [hs] at ih; simp at ih
      | some pr => simp

theorem splitFirst_pyStrip_none (d s : Str) (hd : d ≠ [])
    (h : splitFirst d s = none) : splitFirst d (pyStrip s) = none := by
  cases hq : splitFirst d (pyStrip s) with
  | none => rfl
  | some pr =>
    exfalso
    obtain ⟨u, v, huv⟩ := pyStrip_decomp s
    have hdec := splitFirst_decomp d (pyStrip s) pr.1 pr.2 hq
    have hform : s = (u ++ pr.1) ++ d ++ (pr.2 ++ v) := by
      rw [← huv, hdec]
      simp [List.append_assoc]
    have hsome := splitFirst_isSome_of_append d (u ++ pr.1) (pr.2 ++ v) hd
    rw [← hform, h] at hsome
    simp at hsome

theorem bareKeywordScan_not_ok_some (s q : Str) :
    bareKeywordScan s = PyRes.ok (some q) → False := by
  unfold bareKeywordScan
  intro h
  repeat' split at h
  all_goals simp at h

theorem tryFencedRule_ok_some_cases (opener s : Str) (fb : PyRes (Option Str))
    (q : Str) (h : tryFencedRule opener s fb = PyRes.ok (some q)) :
    (∃ g, fencedExtract opener s = some g ∧ q = pyStrip g
      ∧ hasSparqlKeyword q = true) ∨ fb = PyRes.ok (some q) := by
  unfold tryFencedRule at h
  split at h
  · rename_i g2 heq
    split at h
    · rename_i hk
      injection h with h2
      injection h2 with h3
      refine Or.inl ⟨g2, heq, h3.symm, ?_⟩
      rw [h3] at hk
      exact hk
    · exact Or.inr h
  · exact Or.inr h

theorem tryFencedRule_pos (opener s : Str) (fb : PyRes (Option Str)) (g : Str)
    (hf : fencedExtract opener s = some g)
    (hk : hasSparqlKeyword (pyStrip g) = true) :
    tryFencedRule opener s fb = PyRes.ok (some (pyStrip g)) := by
  simp [tryFencedRule, hf, hk]

theorem fencedExtract_no_fence_in_group (opener s g : Str)
    (h : fencedExtract opener s = some g) : splitFirst nlFence g = none := by
  unfold fencedExtract at h
  split at h
  · cases h
  · rename_i pr heq1
    split at h
    · cases h
    · rename_i qr heq2
      injection h with h3
      rw [← h3]
      exact splitFirst_not_in_head nlFence pr.2 qr.1 qr.2 (by simp [nlFence]) heq2

theorem extract_refence_eval (q : Str) (hnone : splitFirst nlFence q = none)
    (hstrip : pyStrip q = q) (hkw : hasSparqlKeyword q = true) :
    extract_sparql_from_response (refence q) = PyRes.ok (some q) := by
  have h1 : fencedExtract sparqlFenceOpen (refence q) = some q := by
    unfold fencedExtract
    have ha : refence q = sparqlFenceOpen ++ (q ++ nlFence) := by
      rw [refence, List.append_assoc]
    rw [ha, ciSplitFirst_self sparqlFenceOpen (q ++ nlFence) (by simp [sparqlFenceOpen])]
    simp [splitFirst_append_self q hnone]
  have h2 := tryFencedRule_pos sparqlFenceOpen (refence q)
    (tryFencedRule plainFenceOpen (refence q) (bareKeywordScan (refence q)))
    q h1 (by rw [hstrip]; exact hkw)
  rw [hstrip] at h2
  exact h2

/-- Claim C8: whenever the extractor returns a query q from some
response text, re-embedding q into a sparql-tagged fenced block and
extracting again returns exactly q (round-trip idempotence through
re-fencing). -/
theorem extract_refence_roundtrip (s q : Str)
    (h : extract_sparql_from_response s = PyRes.ok (some q)) :
    extract_sparql_from_response (refence q) = PyRes.ok (some q) := by
  unfold extract_sparql_from_response at h
  have hprops : splitFirst nlFence q = none ∧ pyStrip q = q
      ∧ hasSparqlKeyword q = true := by
    rcases tryFencedRule_ok_some_cases sparqlFenceOpen s _ q h with
      ⟨g, hf, hq, hkw⟩ | hfb
    · refine ⟨?_, ?_, hkw⟩
      · rw [hq]
        exact splitFirst_pyStrip_none nlFence g (by simp [nlFence])
          (fencedExtract_no_fence_in_group sparqlFenceOpen s g hf)
      · rw [hq, pyStrip_idem]
    · rcases tryFencedRule_ok_some_cases plainFenceOpen s _ q hfb with
        ⟨g, hf, hq, hkw⟩ | hbs
      · refine ⟨?_, ?_, hkw⟩
        · rw [hq]
          exact splitFirst_pyStrip_none nlFence g (by simp [nlFence])
            (fencedExtract_no_fence_in_group plainFenceOpen s g hf)
        · rw [hq, pyStrip_idem]
      · exact absurd hbs (fun hh => bareKeywordScan_not_ok_some s q hh)
  exact extract_refence_eval q hprops.1 hprops.2.1 hprops.2.2

/-- Witness for C8: extracting from a prose-wrapped fenced block yields
the query, and re-fencing plus re-extraction yields it again. -/
theorem extract_refence_roundtrip_witness :
    extract_sparql_from_response (refence (strL "SELECT ?s"))
      = PyRes.ok (some (strL "SELECT ?s")) :=
  extract_refence_roundtrip
    (strL "Here:\n" ++ refence (strL "SELECT ?s") ++ strL "\nDone.")
    (strL "SELECT ?s") (by rfl)

end SparqlEndpointTool
